import Mathlib

/-!
Shallow embedding of the assignment submission and auto-grading subsystem of
the ttls_backend repository (src/routes/assignments.js together with the
embedded quiz-question schema and the Submission schema).

Numbers are modelled as rationals, JavaScript `undefined`/`null` as `Option`,
and the JS falsy-default idioms (`x || d`) as explicit helper functions.
String normalisation (`toLowerCase().trim()`) is modelled on the ASCII
fragment by structurally recursive functions so that every definition is
executable by the kernel.
-/

namespace TTLS

/-- JS `s || d` for strings: the empty string is falsy. -/
def jsOrStr (s d : String) : String := if s = "" then d else s

/-- JS `x || d` where `x` may be `undefined`/`null` (modelled as `none`). -/
def jsOrStrO (o : Option String) (d : String) : String :=
  match o with
  | none => d
  | some s => jsOrStr s d

/-- JS `x || d` for numbers: `0` is falsy. -/
def jsOrNum (x d : ℚ) : ℚ := if x = 0 then d else x

/-- JS `x || d` for a possibly missing number. -/
def jsOrNumO (o : Option ℚ) (d : ℚ) : ℚ :=
  match o with
  | none => d
  | some v => jsOrNum v d

/-- ASCII lower-casing of one character, as `toLowerCase` acts on ASCII. -/
def lowerChar (c : Char) : Char :=
  if 'A' ≤ c ∧ c ≤ 'Z' then Char.ofNat (c.toNat + 32) else c

/-- Whitespace characters removed by JS `trim` (ASCII fragment). -/
def isWs (c : Char) : Bool := c = ' ' || c = '\t' || c = '\n' || c = '\r'

/-- Drop leading and trailing whitespace from a character list. -/
def trimChars (l : List Char) : List Char :=
  ((l.dropWhile isWs).reverse.dropWhile isWs).reverse

/-- JS `String(x).toLowerCase().trim()`, the normalisation used by the grader. -/
def normStr (s : String) : String :=
  String.mk (trimChars (s.data.map lowerChar))

/-- JS `Math.round`: round half towards positive infinity. -/
def jsRound (x : ℚ) : ℤ := ⌊x + 1/2⌋

/-- One quiz question as stored on an Assignment (QuizQuestionSchema).
`qid` models the Mongo `_id` used to correlate answers with questions. -/
structure Question where
  qid : ℕ
  question : String
  qtype : String
  options : List String
  correctAnswer : String
  correctAnswers : List String
  points : ℚ
  order : ℤ
deriving DecidableEq

/-- One submitted answer (AnswerSchema); fields absent in the JSON payload
or unset in the store are `none`.  For `isCorrect`, `none` models both
`undefined` and `null` (the unknown state). -/
structure SubAnswer where
  questionId : Option ℕ
  answer : Option String
  answers : Option (List String)
  isCorrect : Option Bool
  points : Option ℚ
  feedback : Option String
deriving DecidableEq

/-- One record of `autoGradeQuiz`'s `gradedAnswers` output. -/
structure GradedAnswer where
  questionId : ℕ
  question : String
  qtype : String
  answer : String
  answers : List String
  isCorrect : Option Bool
  points : ℚ
  maxPoints : ℚ
deriving DecidableEq

/-- `answers.find(a => a.questionId && a.questionId.toString() === question._id.toString())`. -/
def findAnswer (answers : List SubAnswer) (q : Question) : Option SubAnswer :=
  answers.find? (fun a => a.questionId == some q.qid)

/-- The body of the `assignment.questions.forEach` loop of `autoGradeQuiz`:
grade a single question against the submitted answers.  The initial JS state
is `isCorrect = false, points = 0`; a question type outside the handled five
keeps that initial state. -/
def gradeOne (answers : List SubAnswer) (q : Question) : GradedAnswer :=
  let answer := findAnswer answers q
  let result : Option Bool × ℚ :=
    if q.qtype = "essay" ∨ q.qtype = "file-upload" then
      (none, 0)
    else if q.qtype = "multiple-choice" then
      let correctAnswer := q.correctAnswer
      let studentAnswer := jsOrStrO (answer.bind SubAnswer.answer) ""
      let ok := normStr studentAnswer == normStr correctAnswer
      (some ok, if ok then jsOrNum q.points 1 else 0)
    else if q.qtype = "identification" then
      let correctAnswer := normStr (jsOrStr q.correctAnswer "")
      let studentAnswer := normStr (jsOrStrO (answer.bind SubAnswer.answer) "")
      let ok := studentAnswer == correctAnswer
      (some ok, if ok then jsOrNum q.points 1 else 0)
    else if q.qtype = "enumeration" then
      let correctAnswers := q.correctAnswers.map normStr
      let studentAnswers := ((answer.bind SubAnswer.answers).getD []).map normStr
      let correctCount := (studentAnswers.filter (fun sa => correctAnswers.contains sa)).length
      let totalCorrect := correctAnswers.length
      if 0 < totalCorrect then
        (some ((correctCount == totalCorrect) && (studentAnswers.length == totalCorrect)),
          ((correctCount : ℚ) / (totalCorrect : ℚ)) * jsOrNum q.points 1)
      else
        (some false, 0)
    else
      (some false, 0)
  { questionId := q.qid
    question := q.question
    qtype := q.qtype
    answer := jsOrStrO (answer.bind SubAnswer.answer) ""
    answers := (answer.bind SubAnswer.answers).getD []
    isCorrect := result.1
    points := result.2
    maxPoints := jsOrNum q.points 1 }

/-- Result record of `autoGradeQuiz`. -/
structure GradeResult where
  totalScore : ℚ
  totalPoints : ℚ
  gradedAnswers : List GradedAnswer
deriving DecidableEq

/-- `autoGradeQuiz(assignment, answers)`: grade every question, accumulating
the earned score and the total of `question.points || 1`. -/
def autoGradeQuiz (questions : List Question) (answers : List SubAnswer) : GradeResult :=
  if questions.isEmpty then
    { totalScore := 0, totalPoints := 0, gradedAnswers := [] }
  else
    let gradedAnswers := questions.map (gradeOne answers)
    { totalScore := (gradedAnswers.map GradedAnswer.points).sum
      totalPoints := (questions.map (fun q => jsOrNum q.points 1)).sum
      gradedAnswers := gradedAnswers }

/-- The Assignment fields the submission subsystem reads. -/
structure Assignment where
  atype : String
  questions : List Question
  totalPoints : ℚ
  allowAutomaticGrading : Bool
  allowResubmission : Bool
deriving DecidableEq

/-- A stored Submission document (SubmissionSchema).  Time stamps are opaque
naturals. -/
structure Submission where
  content : Option String
  answers : List SubAnswer
  files : List String
  grade : Option ℚ
  totalPoints : ℚ
  feedback : Option String
  isGraded : Bool
  autoGraded : Bool
  submittedAt : ℕ
  gradedAt : Option ℕ
  resubmitted : Bool
  resubmittedAt : Option ℕ
  previousContent : Option String
  previousAnswers : List SubAnswer
  previousFiles : List String
deriving DecidableEq

/-- The merge step of the submit route:
`{...answer, isCorrect: graded?.isCorrect, points: graded?.points || 0}`
where `graded` is looked up in the grading result by question id. -/
def mergeAnswer (gradedAnswers : List GradedAnswer) (ans : SubAnswer) : SubAnswer :=
  let graded := gradedAnswers.find? (fun g => some g.questionId == ans.questionId)
  { ans with
    isCorrect := graded.bind GradedAnswer.isCorrect
    points := some (jsOrNumO (graded.map GradedAnswer.points) 0) }

/-- Error outcome of the submit route that the embedding models
(HTTP 400, "Resubmission is not allowed for this assignment"). -/
inductive SubmitError
  | resubmissionNotAllowed
deriving DecidableEq

/-- `POST /:id/submit`: the pure core of the route.  `existing` is the stored
Submission for the (assignment, student) pair, `parsedAnswers` the result of
parsing the `answers` payload, `files` the uploaded file references and `now`
the current time.  On success it returns the Submission that is stored. -/
def submit (a : Assignment) (existing : Option Submission) (content : Option String)
    (parsedAnswers : List SubAnswer) (files : List String) (now : ℕ) :
    Except SubmitError Submission :=
  if existing.isSome && !a.allowResubmission then
    .error .resubmissionNotAllowed
  else
    let autoGrade := a.atype == "quiz" && a.allowAutomaticGrading
      && decide (0 < parsedAnswers.length)
    let gr := autoGradeQuiz a.questions parsedAnswers
    let grade : Option ℚ := if autoGrade then some gr.totalScore else none
    let totalPoints : ℚ := if autoGrade then gr.totalPoints else jsOrNum a.totalPoints 100
    let mergedAnswers :=
      if autoGrade then parsedAnswers.map (mergeAnswer gr.gradedAnswers) else parsedAnswers
    match existing with
    | some s =>
      .ok { s with
        previousContent := s.content
        previousAnswers := s.answers
        previousFiles := s.files
        content := content
        answers := mergedAnswers
        files := files
        submittedAt := now
        resubmitted := true
        resubmittedAt := some now
        grade := if autoGrade then grade else s.grade
        totalPoints := if autoGrade then totalPoints else s.totalPoints
        isGraded := if autoGrade then true else s.isGraded
        gradedAt := if autoGrade then some now else s.gradedAt }
    | none =>
      .ok { content := content
            answers := mergedAnswers
            files := files
            grade := grade
            totalPoints := totalPoints
            feedback := none
            isGraded := autoGrade
            autoGraded := autoGrade
            submittedAt := now
            gradedAt := none
            resubmitted := false
            resubmittedAt := none
            previousContent := none
            previousAnswers := []
            previousFiles := [] }

/-- The submit route seen as a transition on the stored Submission for one
(assignment, student) pair: an error response leaves the store untouched.
The second component reports whether the call succeeded. -/
def submitCall (a : Assignment) (store : Option Submission) (content : Option String)
    (parsedAnswers : List SubAnswer) (files : List String) (now : ℕ) :
    Option Submission × Bool :=
  match submit a store content parsedAnswers files now with
  | .ok s => (some s, true)
  | .error _ => (store, false)

/-- One entry of the per-answer grade list accepted by the manual grading
route; absent fields are `none`.  `isCorrect = some none` models an explicit
`null` (supplied, meaning unknown). -/
structure PerAnswerGrade where
  questionId : Option ℕ
  points : Option ℚ
  feedback : Option String
  isCorrect : Option (Option Bool)
deriving DecidableEq

/-- Overwrite one stored answer with a matching per-answer grade, keeping the
old value of each field the grader did not supply. -/
def overwriteAnswer (gas : List PerAnswerGrade) (ans : SubAnswer) : SubAnswer :=
  match gas.find? (fun g => g.questionId.isSome && g.questionId == ans.questionId) with
  | some g =>
    { ans with
      points := match g.points with | some p => some p | none => ans.points
      feedback := match g.feedback with | some f => some f | none => ans.feedback
      isCorrect := match g.isCorrect with | some c => c | none => ans.isCorrect }
  | none => ans

/-- `PUT /:assignmentId/submissions/:submissionId/grade`: the pure core of
the manual grading route.  `atype` is the type of the populated assignment. -/
def gradeManually (atype : String) (sub : Submission) (grade : Option ℚ)
    (feedback : Option String) (gradedAnswers : Option (List PerAnswerGrade)) (now : ℕ) :
    Submission :=
  let s1 := { sub with
    grade := match grade with | some g => some g | none => sub.grade
    feedback := match feedback with | some f => some f | none => sub.feedback
    isGraded := true
    gradedAt := some now }
  match gradedAnswers with
  | some gas =>
    if atype = "quiz" then
      let newAnswers := s1.answers.map (overwriteAnswer gas)
      let totalScore := (newAnswers.map (fun a => jsOrNumO a.points 0)).sum
      { s1 with
        answers := newAnswers
        grade := if grade.isNone then some totalScore else s1.grade }
    else s1
  | none => s1

/-- The statistics payload of `GET /:id/statistics` (grade distribution
flattened into the five bucket fields). -/
structure Statistics where
  total : ℕ
  graded : ℕ
  ungraded : ℕ
  average : ℚ
  excellent : ℕ
  good : ℕ
  satisfactory : ℕ
  needsImprovement : ℕ
  ungradedBucket : ℕ
deriving DecidableEq

/-- `GET /:id/statistics`: the pure core of the statistics route.  The JS
`sum / graded || 0` turns the `NaN` of a zero division into `0`; the
response rounds the average to two decimals via `Math.round(a*100)/100`. -/
def listStatistics (subs : List Submission) : Statistics :=
  let total := subs.length
  let gradedSubs := subs.filter (fun s => s.grade.isSome)
  let graded := gradedSubs.length
  let rawAverage : ℚ :=
    if 0 < total then
      if graded = 0 then 0
      else (gradedSubs.map (fun s => jsOrNumO s.grade 0)).sum / (graded : ℚ)
    else 0
  { total := total
    graded := graded
    ungraded := total - graded
    average := (jsRound (rawAverage * 100) : ℚ) / 100
    excellent := (subs.filter (fun s => s.grade.any (fun g => decide (90 ≤ g)))).length
    good := (subs.filter (fun s => s.grade.any (fun g => decide (80 ≤ g ∧ g < 90)))).length
    satisfactory := (subs.filter (fun s => s.grade.any (fun g => decide (70 ≤ g ∧ g < 80)))).length
    needsImprovement := (subs.filter (fun s => s.grade.any (fun g => decide (g < 70)))).length
    ungradedBucket := (subs.filter (fun s => s.grade.isNone)).length }

/-- A raw question as supplied in the create/update payload; absent JSON
fields are `none`. -/
structure RawQuestion where
  question : Option String
  qtype : Option String
  options : Option (List String)
  correctAnswer : Option String
  correctAnswers : Option (List String)
  points : Option ℚ
  order : Option ℤ
deriving DecidableEq

/-- Normalisation of one raw question at list index `index`, as done by the
create and update routes.  The storage layer's fresh `_id` is modelled by the
position. -/
def normalizeQuestion (index : ℕ) (q : RawQuestion) : Question :=
  { qid := index
    question := jsOrStrO q.question ""
    qtype := jsOrStrO q.qtype "multiple-choice"
    options := q.options.getD []
    correctAnswer := jsOrStrO q.correctAnswer ""
    correctAnswers := q.correctAnswers.getD []
    points := jsOrNumO q.points 1
    order := match q.order with | some o => o | none => (index : ℤ) }

/-- Normalise a whole raw question list. -/
def normalizeQuestions (qs : List RawQuestion) : List Question :=
  qs.enum.map (fun p => normalizeQuestion p.1 p.2)

/-- The `questions` field of a create/update request: absent (or falsy), a
string that `JSON.parse` rejects, or a well-formed list of raw questions. -/
inductive QuestionsPayload
  | absent
  | badJson
  | list (qs : List RawQuestion)
deriving DecidableEq

/-- The question-parsing block of `POST /` (create): outside the quiz case or
when parsing fails, the defaults `[]` and `0` survive. -/
def parseQuestionsCreate (atype : String) (payload : QuestionsPayload) :
    List Question × ℚ :=
  if atype = "quiz" then
    match payload with
    | .absent => ([], 0)
    | .badJson => ([], 0)
    | .list qs =>
      let norm := normalizeQuestions qs
      (norm, (norm.map (fun q => jsOrNum q.points 1)).sum)
  else ([], 0)

/-- `POST /` (create assignment): the fields the claims are about. -/
def createAssignment (atype : String) (payload : QuestionsPayload)
    (allowAutomaticGrading : Option Bool) (allowResubmission : Option Bool) :
    Assignment :=
  let parsed := parseQuestionsCreate atype payload
  { atype := atype
    questions := parsed.1
    totalPoints := parsed.2
    allowAutomaticGrading := allowAutomaticGrading.getD (atype == "quiz")
    allowResubmission := allowResubmission.getD false }

/-- The `if (questions)` block of `PUT /:id` (update): an absent/falsy payload
leaves the questions untouched; otherwise questions and totalPoints are
replaced, with parse failures degrading to the defaults `[]` and `0`.
The update route does not re-check `type == 'quiz'` here. -/
def updateQuestions (a : Assignment) (payload : QuestionsPayload) : Assignment :=
  match payload with
  | .absent => a
  | .badJson => { a with questions := [], totalPoints := 0 }
  | .list qs =>
    let norm := normalizeQuestions qs
    { a with
      questions := norm
      totalPoints := (norm.map (fun q => jsOrNum q.points 1)).sum }

/-- The effective single student answer the grader uses for a question:
`answer?.answer || ''` on the located answer. -/
def studentAnswerOf (answers : List SubAnswer) (q : Question) : String :=
  jsOrStrO ((findAnswer answers q).bind SubAnswer.answer) ""

/-- The effective student answer list the grader uses for an enumeration
question: `answer?.answers || []` on the located answer. -/
def studentEnumAnswers (answers : List SubAnswer) (q : Question) : List String :=
  ((findAnswer answers q).bind SubAnswer.answers).getD []

/-- The grader's `correctCount` for an enumeration question: how many of the
normalised student answers occur in the normalised correct set (duplicates in
the student list each count). -/
def enumCorrectCount (answers : List SubAnswer) (q : Question) : ℕ :=
  (((studentEnumAnswers answers q).map normStr).filter
    (fun s => (q.correctAnswers.map normStr).contains s)).length

/-- Concrete data used by witnesses: an enumeration question worth 3 points
with three correct answers. -/
def exEnumQ : Question :=
  { qid := 0, question := "list three", qtype := "enumeration", options := [],
    correctAnswer := "", correctAnswers := ["a", "b", "c"], points := 3, order := 0 }

/-- A student answer supplying two of `exEnumQ`'s three correct items. -/
def exEnumA : SubAnswer :=
  { questionId := some 0, answer := none, answers := some ["A ", "b"],
    isCorrect := none, points := none, feedback := none }

/-- A multiple-choice question worth 2 points. -/
def exChoiceQ : Question :=
  { qid := 0, question := "capital", qtype := "multiple-choice",
    options := ["paris", "rome"], correctAnswer := "paris", correctAnswers := [],
    points := 2, order := 0 }

/-- A student answer matching `exChoiceQ` up to case and whitespace. -/
def exChoiceA : SubAnswer :=
  { questionId := some 0, answer := some "Paris ", answers := none,
    isCorrect := none, points := none, feedback := none }

/-- An identification question whose `correctAnswer` is the empty string
(the default the create route applies when the creator omits it). -/
def exIdQ : Question :=
  { qid := 0, question := "blank", qtype := "identification", options := [],
    correctAnswer := "", correctAnswers := [], points := 5, order := 0 }

/-- A whitespace-only student answer. -/
def exWsA : SubAnswer :=
  { questionId := some 0, answer := some "   ", answers := none,
    isCorrect := none, points := none, feedback := none }

/-- A quiz assignment with automatic grading on and resubmission off. -/
def exQuizA : Assignment :=
  { atype := "quiz", questions := [exChoiceQ], totalPoints := 2,
    allowAutomaticGrading := true, allowResubmission := false }

/-- An assignment allowing resubmission (no auto-grading). -/
def exQuizR : Assignment :=
  { atype := "quiz", questions := [], totalPoints := 10,
    allowAutomaticGrading := false, allowResubmission := true }

/-- A blank stored Submission. -/
def dummySub : Submission :=
  { content := none, answers := [], files := [], grade := none, totalPoints := 0,
    feedback := none, isGraded := false, autoGraded := false, submittedAt := 0,
    gradedAt := none, resubmitted := false, resubmittedAt := none,
    previousContent := none, previousAnswers := [], previousFiles := [] }

/-- Extract the stored Submission of a successful submit call (with a default
for the error case); used to state closed facts about concrete calls. -/
def okSub (r : Except SubmitError Submission) (d : Submission) : Submission :=
  match r with
  | .ok s => s
  | .error _ => d

/-- The `gradedAt` field of a successful submit call's Submission, `none` on
error. -/
def okGradedAt (r : Except SubmitError Submission) : Option (Option ℕ) :=
  match r with
  | .ok s => some s.gradedAt
  | .error _ => none

/-- A stored quiz submission with two answers worth (5, 0) points, as left by
the auto-grader in the claim's manual-grading example. -/
def exGradedSub : Submission :=
  { dummySub with
    answers :=
      [{ questionId := some 1, answer := some "x", answers := none,
         isCorrect := some true, points := some 5, feedback := none },
       { questionId := some 2, answer := some "y", answers := none,
         isCorrect := some false, points := some 0, feedback := none }]
    grade := some 5
    totalPoints := 10
    isGraded := true
    autoGraded := true }

/-- A manual override setting the second answer's points to 3. -/
def exOverride : PerAnswerGrade :=
  { questionId := some 2, points := some 3, feedback := none,
    isCorrect := some (some true) }

/-- A Submission whose only claim-relevant field is its grade. -/
def plainSub (g : Option ℚ) : Submission := { dummySub with grade := g }

/-- Three graded submissions whose mean grade is not representable in two
decimals. -/
def demoRound : List Submission :=
  [plainSub (some 1), plainSub (some 0), plainSub (some 0)]

/-- The spec's statistics example: grades 95, 82, 71, 60 and one ungraded. -/
def demoDist : List Submission :=
  [plainSub (some 95), plainSub (some 82), plainSub (some 71),
   plainSub (some 60), plainSub none]

/-- Statement of the average in the claim's words: the mean of `grade` over
graded submissions only, `0` when none are graded. -/
def specMeanGrade (subs : List Submission) : ℚ :=
  let gs := subs.filter (fun s => s.grade.isSome)
  if gs.length = 0 then 0
  else (gs.map (fun s => s.grade.getD 0)).sum / (gs.length : ℚ)

/-- A raw question payload with every field omitted. -/
def emptyRawQ : RawQuestion :=
  { question := none, qtype := none, options := none, correctAnswer := none,
    correctAnswers := none, points := none, order := none }

/-! helper lemmas -/

theorem jsOrStr_empty_default (s : String) : jsOrStr s "" = s := by
  unfold jsOrStr
  split <;> simp_all

theorem jsOrNum_of_ne_zero (x d : ℚ) (h : x ≠ 0) : jsOrNum x d = x := by
  simp [jsOrNum, h]

theorem dropWhile_all_eq_nil (p : Char → Bool) (l : List Char)
    (h : ∀ c ∈ l, p c = true) : l.dropWhile p = [] :=
  List.dropWhile_eq_nil_iff.mpr h

theorem lowerChar_of_ws (c : Char) (h : isWs c = true) : lowerChar c = c := by
  have h' : c = ' ' ∨ c = '\t' ∨ c = '\n' ∨ c = '\r' := by
    simpa [isWs, or_assoc] using h
  rcases h' with h' | h' | h' | h' <;> subst h' <;> decide

theorem normStr_of_all_ws (s : String) (h : ∀ c ∈ s.data, isWs c = true) :
    normStr s = "" := by
  unfold normStr trimChars
  have hmap : s.data.map lowerChar = s.data := by
    have hcongr := List.map_congr_left (fun c hc => lowerChar_of_ws c (h c hc))
    simpa using hcongr
  rw [hmap, dropWhile_all_eq_nil isWs s.data h]
  rfl

/-- Shared description of the multiple-choice and identification branches of
`gradeOne`. -/
theorem gradeOne_choice (q : Question) (answers : List SubAnswer)
    (hq : q.qtype = "multiple-choice" ∨ q.qtype = "identification") :
    (gradeOne answers q).isCorrect
        = some (normStr (studentAnswerOf answers q) == normStr q.correctAnswer) ∧
    (gradeOne answers q).points
        = (if normStr (studentAnswerOf answers q) == normStr q.correctAnswer
           then jsOrNum q.points 1 else 0) := by
  rcases hq with h | h <;>
    simp [gradeOne, studentAnswerOf, h, jsOrStr_empty_default]

/-- Shared description of the essay and file-upload branches of `gradeOne`. -/
theorem gradeOne_ungraded (q : Question) (answers : List SubAnswer)
    (hq : q.qtype = "essay" ∨ q.qtype = "file-upload") :
    (gradeOne answers q).isCorrect = none ∧ (gradeOne answers q).points = 0 := by
  rcases hq with h | h <;> simp [gradeOne, h]

/-- Shared description of the enumeration branch of `gradeOne`. -/
theorem gradeOne_enumeration (q : Question) (answers : List SubAnswer)
    (hq : q.qtype = "enumeration") :
    (0 < q.correctAnswers.length →
      (gradeOne answers q).points
          = ((enumCorrectCount answers q : ℚ) / (q.correctAnswers.length : ℚ))
              * jsOrNum q.points 1 ∧
      (gradeOne answers q).isCorrect
          = some ((enumCorrectCount answers q == q.correctAnswers.length)
              && ((studentEnumAnswers answers q).length == q.correctAnswers.length))) ∧
    (q.correctAnswers.length = 0 →
      (gradeOne answers q).points = 0 ∧ (gradeOne answers q).isCorrect = some false) := by
  constructor
  · intro htc
    simp [gradeOne, hq, enumCorrectCount, studentEnumAnswers, htc]
  · intro htc
    have : q.correctAnswers = [] := List.length_eq_zero.mp htc
    simp [gradeOne, hq, this]

theorem autoGradeQuiz_totalScore (qs : List Question) (ans : List SubAnswer) :
    (autoGradeQuiz qs ans).totalScore
      = ((autoGradeQuiz qs ans).gradedAnswers.map GradedAnswer.points).sum := by
  unfold autoGradeQuiz
  split <;> simp

theorem sum_points_of_ne_zero (l : List Question) (h : ∀ q ∈ l, q.points ≠ 0) :
    (l.map (fun q => jsOrNum q.points 1)).sum = (l.map Question.points).sum := by
  rw [List.map_congr_left (fun q hq => jsOrNum_of_ne_zero q.points 1 (h q hq))]

theorem normalizeQuestion_points_ne_zero (i : ℕ) (q : RawQuestion) :
    (normalizeQuestion i q).points ≠ 0 := by
  show jsOrNumO q.points 1 ≠ 0
  cases q.points with
  | none => norm_num [jsOrNumO]
  | some v =>
    show jsOrNum v 1 ≠ 0
    unfold jsOrNum
    split
    · norm_num
    · next h => exact h

theorem normalizeQuestions_points_ne_zero (qs : List RawQuestion) :
    ∀ q ∈ normalizeQuestions qs, q.points ≠ 0 := by
  intro q hq
  unfold normalizeQuestions at hq
  obtain ⟨p, hp, hpq⟩ := List.mem_map.mp hq
  rw [← hpq]
  exact normalizeQuestion_points_ne_zero p.1 p.2

theorem autoGradeQuiz_totalPoints (qs : List Question) (ans : List SubAnswer)
    (h : ∀ q ∈ qs, q.points ≠ 0) :
    (autoGradeQuiz qs ans).totalPoints = (qs.map Question.points).sum := by
  unfold autoGradeQuiz
  split
  · next hempty =>
    rw [List.isEmpty_iff.mp hempty]
    simp
  · simpa using sum_points_of_ne_zero qs h

theorem jsOrNumO_getD (o : Option ℚ) : jsOrNumO o 0 = o.getD 0 := by
  cases o with
  | none => rfl
  | some v =>
    show jsOrNum v 0 = v
    unfold jsOrNum
    split
    · next h => exact h.symm
    · rfl

theorem listStatistics_average (subs : List Submission) :
    (listStatistics subs).average = (jsRound (specMeanGrade subs * 100) : ℚ) / 100 := by
  unfold listStatistics specMeanGrade
  cases subs <;> simp [jsOrNumO_getD]

theorem jsRound_of_bounds (x : ℚ) (z : ℤ) (hlow : (z : ℚ) ≤ x + 1/2)
    (hhigh : x + 1/2 < z + 1) : jsRound x = z := by
  rw [jsRound, Int.floor_eq_iff]
  exact ⟨hlow, hhigh⟩

/-- Claim C1: for every enumeration question with non-empty `correctAnswers`,
`autoGradeQuiz` awards `points = (correctCount / |correctAnswers|) *
question.points` where `correctCount` counts the normalised student answers
(duplicates included) occurring in the normalised correct set; with
`|correctAnswers| = 0` it awards `0` points and `isCorrect = false`; and
`isCorrect = true` exactly when `correctCount = |correctAnswers|` and the
student supplied exactly `|correctAnswers|` answers. -/
theorem claim_enumeration_partial_credit
    (q : Question) (answers : List SubAnswer)
    (hq : q.qtype = "enumeration") (hp : q.points ≠ 0) :
    (0 < q.correctAnswers.length →
      (gradeOne answers q).points
          = ((enumCorrectCount answers q : ℚ) / (q.correctAnswers.length : ℚ))
              * q.points ∧
      ((gradeOne answers q).isCorrect = some true ↔
        (enumCorrectCount answers q = q.correctAnswers.length ∧
          (studentEnumAnswers answers q).length = q.correctAnswers.length))) ∧
    (q.correctAnswers.length = 0 →
      (gradeOne answers q).points = 0 ∧ (gradeOne answers q).isCorrect = some false) := by
  have h := gradeOne_enumeration q answers hq
  refine ⟨fun htc => ?_, h.2⟩
  obtain ⟨hpts, hic⟩ := h.1 htc
  refine ⟨by rw [hpts, jsOrNum_of_ne_zero _ _ hp], ?_⟩
  rw [hic]
  simp [Bool.and_eq_true, beq_iff_eq]

/-- Witness for C1 at the spec's worked example: correct set `[a,b,c]`,
student `["A ", "b"]`, 3 points: two thirds credit and not correct. -/
theorem claim_enumeration_partial_credit_witness :
    exEnumQ.qtype = "enumeration" ∧ exEnumQ.points = 3 ∧
    enumCorrectCount [exEnumA] exEnumQ = 2 ∧
    (gradeOne [exEnumA] exEnumQ).points = 2 ∧
    (gradeOne [exEnumA] exEnumQ).isCorrect = some false := by
  have h := (claim_enumeration_partial_credit exEnumQ [exEnumA] rfl
    (by norm_num [exEnumQ])).1 (by decide)
  refine ⟨rfl, rfl, by decide, ?_, by decide⟩
  rw [h.1, show enumCorrectCount [exEnumA] exEnumQ = 2 from by decide,
    show exEnumQ.correctAnswers.length = 3 from by decide]
  norm_num [exEnumQ]

/-- Claim C2: multiple-choice and identification answers are correct and earn
the full `question.points` exactly when the student string matches
`question.correctAnswer` after lowercasing and trimming (a missing answer is
graded as the empty string), and earn `0` otherwise; essay and file-upload
questions always get `isCorrect = unknown` and `0` points. -/
theorem claim_choice_identification_grading
    (q : Question) (answers : List SubAnswer) (hp : q.points ≠ 0) :
    ((q.qtype = "multiple-choice" ∨ q.qtype = "identification") →
      (findAnswer answers q = none → studentAnswerOf answers q = "") ∧
      ((gradeOne answers q).isCorrect = some true ↔
        normStr (studentAnswerOf answers q) = normStr q.correctAnswer) ∧
      (normStr (studentAnswerOf answers q) = normStr q.correctAnswer →
        (gradeOne answers q).points = q.points) ∧
      (normStr (studentAnswerOf answers q) ≠ normStr q.correctAnswer →
        (gradeOne answers q).points = 0)) ∧
    ((q.qtype = "essay" ∨ q.qtype = "file-upload") →
      (gradeOne answers q).isCorrect = none ∧ (gradeOne answers q).points = 0) := by
  refine ⟨fun hq => ?_, gradeOne_ungraded q answers⟩
  obtain ⟨hic, hpts⟩ := gradeOne_choice q answers hq
  refine ⟨fun hf => by simp [studentAnswerOf, hf, jsOrStrO], ?_, ?_, ?_⟩
  · rw [hic]; simp [beq_iff_eq]
  · intro he
    rw [hpts, if_pos (by simp [he]), jsOrNum_of_ne_zero _ _ hp]
  · intro he
    rw [hpts, if_neg (by simpa [beq_iff_eq] using he)]

/-- Witness for C2 at the spec's example: `"Paris "` matches `"paris"` on a
2-point multiple-choice question and earns the 2 points. -/
theorem claim_choice_identification_grading_witness :
    exChoiceQ.qtype = "multiple-choice" ∧
    normStr "Paris " = normStr "paris" ∧
    (gradeOne [exChoiceA] exChoiceQ).isCorrect = some true ∧
    (gradeOne [exChoiceA] exChoiceQ).points = 2 := by
  have h := (claim_choice_identification_grading exChoiceQ [exChoiceA]
    (by norm_num [exChoiceQ])).1 (Or.inl rfl)
  refine ⟨rfl, by decide, h.2.1.mpr (by decide), ?_⟩
  rw [h.2.2.1 (by decide)]
  rfl

/-- Claim C10: when a multiple-choice or identification question's
`correctAnswer` is the empty string (the normalisation default), a student
who omits the answer or submits a whitespace-only answer is graded correct
with the full `question.points`. -/
theorem claim_empty_default_correct_answer
    (q : Question) (answers : List SubAnswer)
    (hq : q.qtype = "multiple-choice" ∨ q.qtype = "identification")
    (hc : q.correctAnswer = "")
    (hp : q.points ≠ 0)
    (hs : ∀ c ∈ (studentAnswerOf answers q).data, isWs c = true) :
    (gradeOne answers q).isCorrect = some true ∧
    (gradeOne answers q).points = q.points := by
  obtain ⟨hic, hpts⟩ := gradeOne_choice q answers hq
  have hstud : normStr (studentAnswerOf answers q) = "" := normStr_of_all_ws _ hs
  have hca : normStr q.correctAnswer = "" := by rw [hc]; decide
  constructor
  · rw [hic, hstud, hca]; rfl
  · rw [hpts, hstud, hca, if_pos (by decide), jsOrNum_of_ne_zero _ _ hp]

/-- Witness for C10: a whitespace-only answer to an identification question
with empty `correctAnswer` earns its full 5 points. -/
theorem claim_empty_default_correct_answer_witness :
    (gradeOne [exWsA] exIdQ).isCorrect = some true ∧
    (gradeOne [exWsA] exIdQ).points = 5 := by
  have h := claim_empty_default_correct_answer exIdQ [exWsA] (Or.inr rfl) rfl
    (by norm_num [exIdQ]) (by decide)
  exact ⟨h.1, by rw [h.2]; rfl⟩

/-- Claim C4: when a Submission already exists and the assignment disallows
resubmission, a further submit fails with the invalid-request error, stores
nothing new and leaves the existing Submission unchanged: of two submit calls
for the same pair the first creates the single stored Submission and the
second fails. -/
theorem claim_resubmission_rejected
    (a : Assignment) (c1 c2 : Option String) (ans1 ans2 : List SubAnswer)
    (f1 f2 : List String) (t1 t2 : ℕ)
    (hr : a.allowResubmission = false) :
    (submitCall a none c1 ans1 f1 t1).2 = true ∧
    (submitCall a none c1 ans1 f1 t1).1.isSome = true ∧
    submit a (submitCall a none c1 ans1 f1 t1).1 c2 ans2 f2 t2
        = .error .resubmissionNotAllowed ∧
    (submitCall a (submitCall a none c1 ans1 f1 t1).1 c2 ans2 f2 t2).1
        = (submitCall a none c1 ans1 f1 t1).1 ∧
    (submitCall a (submitCall a none c1 ans1 f1 t1).1 c2 ans2 f2 t2).2 = false := by
  have hfirst : ∃ s1, submit a none c1 ans1 f1 t1 = .ok s1 := by
    rw [submit]
    simp
  obtain ⟨s1, h1⟩ := hfirst
  have hstore : (submitCall a none c1 ans1 f1 t1).1 = some s1 := by
    rw [submitCall, h1]
  have hsecond : submit a (some s1) c2 ans2 f2 t2 = .error .resubmissionNotAllowed := by
    rw [submit]
    simp [hr]
  refine ⟨by rw [submitCall, h1], by rw [hstore]; rfl, by rw [hstore, hsecond], ?_, ?_⟩
  · rw [hstore, submitCall, hsecond]
  · rw [hstore, submitCall, hsecond]

/-- Witness for C4: a concrete assignment with resubmission disallowed; the
first call succeeds and the second fails, leaving the store as after call
one. -/
theorem claim_resubmission_rejected_witness :
    exQuizA.allowResubmission = false ∧
    (submitCall exQuizA none none [exChoiceA] [] 1).2 = true ∧
    submit exQuizA (submitCall exQuizA none none [exChoiceA] [] 1).1 none
        [exChoiceA] [] 2 = .error .resubmissionNotAllowed := by
  have h := claim_resubmission_rejected exQuizA none none [exChoiceA] [exChoiceA]
    [] [] 1 2 rfl
  exact ⟨rfl, h.1, h.2.2.1⟩

/-- Claim C5: each resubmission snapshots exactly the previous attempt's
content, answers and files (one level of history, overwritten each time) and
stamps `resubmitted`, `resubmittedAt` and `submittedAt`; after two
consecutive resubmissions the snapshot holds the second attempt, never the
first. -/
theorem claim_resubmission_single_snapshot
    (a : Assignment) (s0 s1 s2 : Submission) (c1 c2 : Option String)
    (ans1 ans2 : List SubAnswer) (f1 f2 : List String) (t1 t2 : ℕ)
    (h1 : submit a (some s0) c1 ans1 f1 t1 = .ok s1)
    (h2 : submit a (some s1) c2 ans2 f2 t2 = .ok s2) :
    (s1.previousContent = s0.content ∧ s1.previousAnswers = s0.answers ∧
      s1.previousFiles = s0.files ∧ s1.content = c1 ∧ s1.files = f1 ∧
      s1.resubmitted = true ∧ s1.resubmittedAt = some t1 ∧ s1.submittedAt = t1) ∧
    (s2.previousContent = s1.content ∧ s2.previousAnswers = s1.answers ∧
      s2.previousFiles = s1.files ∧
      s2.resubmitted = true ∧ s2.resubmittedAt = some t2 ∧ s2.submittedAt = t2) ∧
    s2.previousContent = c1 ∧ s2.previousFiles = f1 := by
  cases hr : a.allowResubmission with
  | false =>
    rw [submit] at h1
    simp [hr] at h1
  | true =>
    rw [submit] at h1 h2
    simp [hr] at h1 h2
    constructor
    · rw [← h1]
      simp
    · constructor
      · rw [← h2]
        simp
      · rw [← h2, ← h1]
        simp

/-- Witness for C5: two concrete resubmissions on an assignment allowing
them. -/
theorem claim_resubmission_single_snapshot_witness :
    (okSub (submit exQuizR (some (okSub (submit exQuizR (some dummySub)
        (some "first") [] [] 1) dummySub)) (some "second") [] [] 2) dummySub).previousContent
      = some "first" := by
  have h1 : submit exQuizR (some dummySub) (some "first") [] [] 1
      = .ok (okSub (submit exQuizR (some dummySub) (some "first") [] [] 1) dummySub) := rfl
  have h2 : submit exQuizR (some (okSub (submit exQuizR (some dummySub)
        (some "first") [] [] 1) dummySub)) (some "second") [] [] 2
      = .ok (okSub (submit exQuizR (some (okSub (submit exQuizR (some dummySub)
        (some "first") [] [] 1) dummySub)) (some "second") [] [] 2) dummySub) := rfl
  exact (claim_resubmission_single_snapshot exQuizR dummySub _ _ _ _ _ _ _ _ 1 2
    h1 h2).2.2.1

/-- Counterexample to C3 as stated: on a first submission of an auto-graded
quiz with one answered question, the stored Submission's `gradedAt` is left
unset (the create branch never sets it), refuting "gradedAt set". -/
theorem claim_quiz_submit_autograde_counterexample :
    exQuizA.atype = "quiz" ∧ exQuizA.allowAutomaticGrading = true ∧
    okGradedAt (submit exQuizA none none [exChoiceA] [] 7) = some none := by
  refine ⟨rfl, rfl, ?_⟩
  rfl

/-- Claim C3 (amended): for every submit of a quiz with automatic grading on
and at least one parsed answer that succeeds, the stored Submission has
`isGraded = true`, `grade` equal to the Auto-Grader's total score (the sum of
per-answer points), `totalPoints` equal to the sum of the question points,
and the computed `isCorrect`/`points` merged onto each submitted answer by
question id; on a first submission `autoGraded = true` but `gradedAt` stays
unset, while on a resubmission `gradedAt = now` but the stored `autoGraded`
flag keeps its prior value. -/
theorem claim_quiz_submit_autograde
    (a : Assignment) (existing : Option Submission) (content : Option String)
    (parsedAnswers : List SubAnswer) (files : List String) (now : ℕ) (sub : Submission)
    (hq : a.atype = "quiz") (hg : a.allowAutomaticGrading = true)
    (hne : parsedAnswers ≠ [])
    (hpts : ∀ q ∈ a.questions, q.points ≠ 0)
    (hok : submit a existing content parsedAnswers files now = .ok sub) :
    sub.isGraded = true ∧
    sub.grade = some (((autoGradeQuiz a.questions parsedAnswers).gradedAnswers.map
        GradedAnswer.points).sum) ∧
    sub.totalPoints = (a.questions.map Question.points).sum ∧
    sub.answers = parsedAnswers.map
        (mergeAnswer (autoGradeQuiz a.questions parsedAnswers).gradedAnswers) ∧
    (existing = none → sub.autoGraded = true ∧ sub.gradedAt = none) ∧
    (∀ s0, existing = some s0 → sub.gradedAt = some now ∧ sub.autoGraded = s0.autoGraded) := by
  have hlen : 0 < parsedAnswers.length := List.length_pos.mpr hne
  rw [submit] at hok
  cases existing with
  | none =>
    simp [hq, hg, hlen] at hok
    subst hok
    refine ⟨rfl, ?_, ?_, rfl, fun _ => ⟨rfl, rfl⟩, fun s0 hs0 => by cases hs0⟩
    · rw [← autoGradeQuiz_totalScore]
    · simpa using autoGradeQuiz_totalPoints a.questions parsedAnswers hpts
  | some s0 =>
    cases hr : a.allowResubmission with
    | false => simp [hr] at hok
    | true =>
      simp [hq, hg, hlen, hr] at hok
      subst hok
      refine ⟨rfl, ?_, ?_, rfl, fun h => absurd h (by simp), fun s0' hs0' => ?_⟩
      · rw [← autoGradeQuiz_totalScore]
      · simpa using autoGradeQuiz_totalPoints a.questions parsedAnswers hpts
      · have hs : s0' = s0 := by
          injection hs0' with h'
          exact h'.symm
        subst hs
        exact ⟨rfl, rfl⟩

/-- Witness for C3 (amended) at a concrete first submission: one 2-point
multiple-choice question answered correctly gives an isGraded, autoGraded
submission with grade 2 and totalPoints 2. -/
theorem claim_quiz_submit_autograde_witness :
    (okSub (submit exQuizA none none [exChoiceA] [] 7) dummySub).isGraded = true ∧
    (okSub (submit exQuizA none none [exChoiceA] [] 7) dummySub).autoGraded = true ∧
    (okSub (submit exQuizA none none [exChoiceA] [] 7) dummySub).grade = some 2 ∧
    (okSub (submit exQuizA none none [exChoiceA] [] 7) dummySub).totalPoints = 2 := by
  have hok : submit exQuizA none none [exChoiceA] [] 7
      = .ok (okSub (submit exQuizA none none [exChoiceA] [] 7) dummySub) := rfl
  have h := claim_quiz_submit_autograde exQuizA none none [exChoiceA] [] 7
    (okSub (submit exQuizA none none [exChoiceA] [] 7) dummySub) rfl rfl
    (by simp)
    (by
      intro q hq
      simp only [exQuizA, List.mem_singleton] at hq
      subst hq
      norm_num [exChoiceQ])
    hok
  refine ⟨h.1, (h.2.2.2.2.1 rfl).1, ?_, ?_⟩
  · rw [h.2.1]
    norm_num [exQuizA, autoGradeQuiz, gradeOne, findAnswer, exChoiceQ, exChoiceA,
      jsOrStrO, jsOrStr, jsOrNum]
    decide
  · rw [h.2.2.1]
    norm_num [exQuizA, exChoiceQ]

/-- Claim C6: manual grading of a quiz submission with per-answer grades
overwrites each matching answer's points/feedback/isCorrect, recomputes the
top-level grade as the sum of answer points when no explicit grade was
supplied, keeps a supplied top-level grade, and always sets `isGraded` and
`gradedAt`. -/
theorem claim_manual_per_answer_grading
    (sub : Submission) (grade : Option ℚ) (fb : Option String)
    (gas : List PerAnswerGrade) (now : ℕ) :
    (gradeManually "quiz" sub grade fb (some gas) now).isGraded = true ∧
    (gradeManually "quiz" sub grade fb (some gas) now).gradedAt = some now ∧
    (gradeManually "quiz" sub grade fb (some gas) now).answers
        = sub.answers.map (overwriteAnswer gas) ∧
    (grade = none →
      (gradeManually "quiz" sub grade fb (some gas) now).grade
        = some (((sub.answers.map (overwriteAnswer gas)).map
            (fun a => jsOrNumO a.points 0)).sum)) ∧
    (∀ g, grade = some g →
      (gradeManually "quiz" sub grade fb (some gas) now).grade = some g) := by
  cases grade with
  | none => simp [gradeManually]
  | some g => simp [gradeManually]

/-- Witness for C6 at the claim's example: answers auto-graded (5, 0) with
the second overridden to 3 and no top-level grade yield grade 8. -/
theorem claim_manual_per_answer_grading_witness :
    (gradeManually "quiz" exGradedSub none none (some [exOverride]) 5).isGraded = true ∧
    (gradeManually "quiz" exGradedSub none none (some [exOverride]) 5).grade = some 8 := by
  have h := claim_manual_per_answer_grading exGradedSub none none [exOverride] 5
  refine ⟨h.1, ?_⟩
  rw [h.2.2.2.1 rfl]
  simp only [exGradedSub, dummySub, exOverride, overwriteAnswer, jsOrNumO, jsOrNum,
    List.find?, List.map_cons, List.map_nil, List.sum_cons, List.sum_nil]
  norm_num
  show (if (5 : ℚ) = 0 then 0 else (5 : ℚ)) + 3 = 8
  rw [if_neg (by norm_num)]
  norm_num

/-- Counterexample to C7 as stated: grades `[1, 0, 0]` have mean `1/3`, but
the returned average is `0.33` — the route rounds to two decimals, so the
average is not always equal to the mean. -/
theorem claim_statistics_counterexample :
    specMeanGrade demoRound = 1/3 ∧
    (listStatistics demoRound).average = 33/100 ∧
    ¬ (listStatistics demoRound).average = specMeanGrade demoRound := by
  have h1 : specMeanGrade demoRound = 1/3 := by
    norm_num [specMeanGrade, demoRound, plainSub, dummySub]
  have h2 : (listStatistics demoRound).average = 33/100 := by
    rw [listStatistics_average, h1,
      show ((1 : ℚ)/3 * 100) = 100/3 from by norm_num,
      jsRound_of_bounds (100/3) 33 (by norm_num) (by norm_num)]
    norm_num
  exact ⟨h1, h2, by rw [h1, h2]; norm_num⟩

/-- Claim C7 (amended): the returned `average` is the mean of `grade` over
graded submissions (0 when none are graded) rounded to the nearest hundredth
(half up), and the distribution buckets graded submissions by raw grade —
excellent ≥ 90, good [80,90), satisfactory [70,80), needsImprovement < 70 —
with `ungraded` counting submissions without a grade; on the spec's example
`[95, 82, 71, 60, ungraded]` the average is 77 with one submission per
bucket. -/
theorem claim_statistics (subs : List Submission) :
    (listStatistics subs).average = (jsRound (specMeanGrade subs * 100) : ℚ) / 100 ∧
    ((subs.filter (fun s => s.grade.isSome)).length = 0 →
      (listStatistics subs).average = 0) ∧
    (listStatistics subs).excellent
        = (subs.filter (fun s => s.grade.any (fun g => decide (90 ≤ g)))).length ∧
    (listStatistics subs).good
        = (subs.filter (fun s => s.grade.any (fun g => decide (80 ≤ g ∧ g < 90)))).length ∧
    (listStatistics subs).satisfactory
        = (subs.filter (fun s => s.grade.any (fun g => decide (70 ≤ g ∧ g < 80)))).length ∧
    (listStatistics subs).needsImprovement
        = (subs.filter (fun s => s.grade.any (fun g => decide (g < 70)))).length ∧
    (listStatistics subs).ungradedBucket
        = (subs.filter (fun s => s.grade.isNone)).length ∧
    (listStatistics demoDist).average = 77 ∧
    (listStatistics demoDist).excellent = 1 ∧
    (listStatistics demoDist).good = 1 ∧
    (listStatistics demoDist).satisfactory = 1 ∧
    (listStatistics demoDist).needsImprovement = 1 ∧
    (listStatistics demoDist).ungradedBucket = 1 := by
  refine ⟨listStatistics_average subs, ?_, rfl, rfl, rfl, rfl, rfl, ?_, ?_, ?_, ?_, ?_, ?_⟩
  · intro hzero
    rw [listStatistics_average]
    unfold specMeanGrade
    rw [if_pos hzero,
      show ((0 : ℚ) * 100) = 0 from by norm_num,
      jsRound_of_bounds 0 0 (by norm_num) (by norm_num)]
    norm_num
  · rw [listStatistics_average,
      show specMeanGrade demoDist = 77 from by
        norm_num [specMeanGrade, demoDist, plainSub, dummySub],
      show ((77 : ℚ) * 100) = 7700 from by norm_num,
      jsRound_of_bounds 7700 7700 (by norm_num) (by norm_num)]
    norm_num
  · norm_num [listStatistics, demoDist, plainSub, dummySub]
  · norm_num [listStatistics, demoDist, plainSub, dummySub]
  · norm_num [listStatistics, demoDist, plainSub, dummySub]
  · norm_num [listStatistics, demoDist, plainSub, dummySub]
  · norm_num [listStatistics, demoDist, plainSub, dummySub]

/-- Witness for C7 (amended): with a single ungraded submission the returned
average is 0. -/
theorem claim_statistics_witness :
    (listStatistics [plainSub none]).average = 0 :=
  (claim_statistics [plainSub none]).2.1 (by decide)

/-- Claim C8: on create and update of a quiz with a well-formed question
list, each raw question is normalised (kind defaults to multiple-choice,
points to 1, order to the list index) and `totalPoints` equals the sum of
the stored questions' points; that equality holds for every Assignment
produced by create and it is preserved by every update. -/
theorem claim_totalPoints_invariant
    (qs : List RawQuestion) (ag ar : Option Bool) (t : String)
    (p : QuestionsPayload) (g r : Option Bool) (b : Assignment)
    (pp : QuestionsPayload) :
    (createAssignment "quiz" (.list qs) ag ar).questions = normalizeQuestions qs ∧
    (∀ (i : ℕ) (q : RawQuestion), q.qtype = none →
      (normalizeQuestion i q).qtype = "multiple-choice") ∧
    (∀ (i : ℕ) (q : RawQuestion), q.points = none →
      (normalizeQuestion i q).points = 1) ∧
    (∀ (i : ℕ) (q : RawQuestion), q.order = none →
      (normalizeQuestion i q).order = (i : ℤ)) ∧
    (createAssignment t p g r).totalPoints
        = ((createAssignment t p g r).questions.map Question.points).sum ∧
    (b.totalPoints = (b.questions.map Question.points).sum →
      (updateQuestions b pp).totalPoints
        = ((updateQuestions b pp).questions.map Question.points).sum) := by
  refine ⟨rfl, ?_, ?_, ?_, ?_, ?_⟩
  · intro i q hq
    simp [normalizeQuestion, hq, jsOrStrO]
  · intro i q hq
    simp [normalizeQuestion, hq, jsOrNumO]
  · intro i q hq
    simp [normalizeQuestion, hq]
  · unfold createAssignment parseQuestionsCreate
    split
    · cases p with
      | absent => simp
      | badJson => simp
      | list qs' =>
        simpa using sum_points_of_ne_zero (normalizeQuestions qs')
          (normalizeQuestions_points_ne_zero qs')
    · simp
  · intro hb
    cases pp with
    | absent => exact hb
    | badJson => simp [updateQuestions]
    | list qs' =>
      simpa [updateQuestions] using sum_points_of_ne_zero (normalizeQuestions qs')
        (normalizeQuestions_points_ne_zero qs')

/-- Witness for C8 at concrete inputs: a create with one all-defaults raw
question, and an update on an assignment satisfying the invariant. -/
theorem claim_totalPoints_invariant_witness :
    (createAssignment "quiz" (.list [emptyRawQ]) none none).totalPoints
        = ((createAssignment "quiz" (.list [emptyRawQ]) none none).questions.map
            Question.points).sum ∧
    (updateQuestions exQuizA .badJson).totalPoints
        = ((updateQuestions exQuizA .badJson).questions.map Question.points).sum := by
  have h := claim_totalPoints_invariant [emptyRawQ] none none "quiz"
    (.list [emptyRawQ]) none none exQuizA .badJson
  exact ⟨h.2.2.2.2.1, h.2.2.2.2.2 (by norm_num [exQuizA, exChoiceQ])⟩

/-- Claim C9: a malformed `questions` payload (one that JSON.parse rejects)
on create or update of a quiz silently degrades to an empty question list
with `totalPoints = 0`; the route continues without reporting an error. -/
theorem claim_malformed_questions_degrade
    (ag ar : Option Bool) (b : Assignment) :
    (createAssignment "quiz" .badJson ag ar).questions = [] ∧
    (createAssignment "quiz" .badJson ag ar).totalPoints = 0 ∧
    (updateQuestions b .badJson).questions = [] ∧
    (updateQuestions b .badJson).totalPoints = 0 :=
  ⟨rfl, rfl, rfl, rfl⟩

end TTLS
